import Mathlib

/-!
Shallow embedding of the storyboard server (`src/server.js`).

The server keeps one in-memory document `storyboardData = { images, stats }`,
mutated by the route handlers and rewritten to `data.json` after every
mutation.  We model:

* the catalog state (`Catalog`: the `images` array plus `stats`),
* the blob store (`uploads/` directory) as a list of filenames,
* the route handlers for upload, favorite-toggle, delete, visit and login,
* JavaScript `parseInt` as used on the `:id` path parameters,
* `path.extname` and the multer `diskStorage` filename callback,
* the JSON document written by `saveData` and read back at startup.

JavaScript numbers that the server stores (ids, counters) are modelled as
`Int`; `Date.now()` and the random draw are explicit parameters.
-/

namespace Storyboard

/-! ## JavaScript `parseInt` (as applied to `req.params.id`) -/

/-- Whitespace characters skipped by JavaScript `parseInt`. -/
def jsWhitespace (ch : Char) : Bool :=
  ch = ' ' || ch = '\t' || ch = '\n' || ch = '\r' || ch = '\x0b' || ch = '\x0c'

/-- Decimal digit value of a character, if any. -/
def digitVal (ch : Char) : Option Nat :=
  if '0' ≤ ch ∧ ch ≤ '9' then some (ch.toNat - 48) else none

/-- Hexadecimal digit value of a character, if any. -/
def hexVal (ch : Char) : Option Nat :=
  if '0' ≤ ch ∧ ch ≤ '9' then some (ch.toNat - 48)
  else if 'a' ≤ ch ∧ ch ≤ 'f' then some (ch.toNat - 87)
  else if 'A' ≤ ch ∧ ch ≤ 'F' then some (ch.toNat - 55)
  else none

/-- Longest leading run of digits (for digit function `dv`, radix `R`);
`none` when there is no leading digit, mirroring `parseInt` returning NaN. -/
def parseDigitsWith (dv : Char → Option Nat) (R : Nat) (cs : List Char) : Option Nat :=
  let ds := cs.takeWhile (fun ch => (dv ch).isSome)
  match ds with
  | [] => none
  | _ => some (ds.foldl (fun acc ch => acc * R + (dv ch).getD 0) 0)

/-- Unsigned part of `parseInt` with no radix argument: a leading `0x`/`0X`
selects radix 16, otherwise radix 10. -/
def jsParseIntUnsigned (cs : List Char) : Option Nat :=
  match cs with
  | '0' :: 'x' :: rest => parseDigitsWith hexVal 16 rest
  | '0' :: 'X' :: rest => parseDigitsWith hexVal 16 rest
  | _ => parseDigitsWith digitVal 10 cs

/-- JavaScript `parseInt(s)` (no radix argument): skip whitespace, take an
optional sign, then parse digits; `none` models NaN. -/
def jsParseInt (s : String) : Option Int :=
  let cs := s.data.dropWhile jsWhitespace
  match cs with
  | '+' :: rest => (jsParseIntUnsigned rest).map (fun n => (n : Int))
  | '-' :: rest => (jsParseIntUnsigned rest).map (fun n => -(n : Int))
  | _ => (jsParseIntUnsigned cs).map (fun n => (n : Int))

/-! ## `path.extname` and the multer filename callback -/

/-- Basename characters: everything after the last `/`. -/
def afterLastSep (cs : List Char) : List Char :=
  cs.foldl (fun acc ch => if ch = '/' then [] else acc ++ [ch]) []

/-- Suffix of the character list starting at its last `.`, if any. -/
def lastDotSuffix : List Char → Option (List Char)
  | [] => none
  | ch :: rest =>
    match lastDotSuffix rest with
    | some suf => some suf
    | none => if ch = '.' then some (ch :: rest) else none

/-- Node `path.extname`: extension of the basename, from its last dot,
empty for dotless names, for hidden files such as `.bashrc`, and for `..`. -/
def extname (p : String) : String :=
  let base := afterLastSep p.data
  if base = ['.', '.'] then ""
  else
    match base with
    | [] => ""
    | _ :: rest =>
      match lastDotSuffix rest with
      | some suf => String.mk suf
      | none => ""

/-- The multer `diskStorage` filename callback:
`Date.now() + '-' + Math.round(Math.random() * 1E9) + path.extname(file.originalname)`. -/
def multerFilename (ts rnd : Nat) (originalname : String) : String :=
  toString ts ++ "-" ++ toString rnd ++ extname originalname

/-! ## The catalog state -/

/-- One element of the `images` array. -/
structure ImageEntry where
  id : Int
  title : String
  description : String
  date : String
  isFavorite : Bool
  filename : String
  url : String
deriving Repr, DecidableEq

/-- The `stats` object. -/
structure Stats where
  totalVisits : Int
  totalImages : Int
  totalFavorites : Int
deriving Repr, DecidableEq

/-- The whole in-memory document `storyboardData`. -/
structure Catalog where
  images : List ImageEntry
  stats : Stats
deriving Repr, DecidableEq

/-- The initial value of `storyboardData` (empty catalog, zeroed stats). -/
def initialStoryboardData : Catalog :=
  { images := [],
    stats := { totalVisits := 0, totalImages := 0, totalFavorites := 0 } }

/-- `images.filter(img => img.isFavorite).length`. -/
def favCount (l : List ImageEntry) : Nat :=
  (l.filter (fun img => img.isFavorite)).length

/-- The `img.id === imageId` comparison; `none` models NaN, which compares
unequal to everything. -/
def idMatches (imageId : Option Int) (img : ImageEntry) : Bool :=
  match imageId with
  | none => false
  | some n => img.id == n

/-! ## Route handlers -/

/-- The `req.file` object delivered by multer after the blob was written. -/
structure StoredFile where
  filename : String
deriving Repr, DecidableEq

/-- Result of the upload route: HTTP status, the returned image (on success),
the catalog afterwards and the blob directory afterwards. -/
structure UploadResult where
  status : Nat
  image : Option ImageEntry
  catalog : Catalog
  blobs : List String
deriving Repr, DecidableEq

/-- Result of the favorite route. -/
structure ToggleResult where
  status : Nat
  isFavorite : Option Bool
  catalog : Catalog
deriving Repr, DecidableEq

/-- Result of the delete route. -/
structure DeleteResult where
  status : Nat
  success : Bool
  catalog : Catalog
  blobs : List String
deriving Repr, DecidableEq

/-- Result of the login route. -/
structure LoginResult where
  status : Nat
  success : Bool
  catalog : Catalog
deriving Repr, DecidableEq

/-- The `newImage` object built by the upload handler (`id = Date.now()`). -/
def mkImageEntry (ts : Nat) (title descr dateStr fname : String) : ImageEntry :=
  { id := (ts : Int), title := title, description := descr, date := dateStr,
    isFavorite := false, filename := fname, url := "/uploads/" ++ fname }

/-- The `POST /api/upload` handler body, entered after multer stored the
attachment (if any): reject when `req.file` is missing; reject and unlink the
blob when `title` or `description` is falsy (absent or empty, both modelled as
`""`); otherwise unshift the new entry and set `totalImages` to the new array
length. -/
def uploadHandler (c : Catalog) (blobs : List String) (file : Option StoredFile)
    (title descr : String) (ts : Nat) (dateStr : String) : UploadResult :=
  match file with
  | none => ⟨400, none, c, blobs⟩
  | some f =>
    if title = "" ∨ descr = "" then
      ⟨400, none, c, blobs.erase f.filename⟩
    else
      let newImage := mkImageEntry ts title descr dateStr f.filename
      let images := newImage :: c.images
      ⟨200, some newImage,
       { images := images,
         stats := { c.stats with totalImages := (images.length : Int) } }, blobs⟩

/-- `images.find(img => img.id === imageId)` followed by the in-place flip of
`isFavorite`: returns the updated array and the new flag value when a match
exists. -/
def toggleFirst (imageId : Option Int) : List ImageEntry → Option (List ImageEntry × Bool)
  | [] => none
  | img :: rest =>
    if idMatches imageId img then
      some ({ img with isFavorite := !img.isFavorite } :: rest, !img.isFavorite)
    else
      match toggleFirst imageId rest with
      | some (rest2, v) => some (img :: rest2, v)
      | none => none

/-- The `POST /api/favorite/:id` handler on a parsed id: flip the first
matching entry, recompute `totalFavorites` from the array, or answer 404. -/
def toggleFavorite (c : Catalog) (imageId : Option Int) : ToggleResult :=
  match toggleFirst imageId c.images with
  | some (images2, newValue) =>
      ⟨200, some newValue,
       { images := images2,
         stats := { c.stats with totalFavorites := (favCount images2 : Int) } }⟩
  | none => ⟨404, none, c⟩

/-- `images.findIndex(img => img.id === imageId)` followed by `splice`:
returns the removed entry and the remaining array when a match exists. -/
def deleteFirst (imageId : Option Int) : List ImageEntry → Option (ImageEntry × List ImageEntry)
  | [] => none
  | img :: rest =>
    if idMatches imageId img then some (img, rest)
    else
      match deleteFirst imageId rest with
      | some (e, rest2) => some (e, img :: rest2)
      | none => none

/-- The `DELETE /api/images/:id` handler on a parsed id: remove the first
matching entry, unlink its blob, recompute both counters, or answer 404. -/
def deleteImage (c : Catalog) (blobs : List String) (imageId : Option Int) : DeleteResult :=
  match deleteFirst imageId c.images with
  | some (img, images2) =>
      ⟨200, true,
       { images := images2,
         stats :=
           { c.stats with
             totalImages := (images2.length : Int),
             totalFavorites := (favCount images2 : Int) } },
       blobs.erase img.filename⟩
  | none => ⟨404, false, c, blobs⟩

/-- The favorite route including `parseInt(req.params.id)`. -/
def toggleFavoriteRoute (c : Catalog) (idParam : String) : ToggleResult :=
  toggleFavorite c (jsParseInt idParam)

/-- The delete route including `parseInt(req.params.id)`. -/
def deleteImageRoute (c : Catalog) (blobs : List String) (idParam : String) : DeleteResult :=
  deleteImage c blobs (jsParseInt idParam)

/-- The `GET /` handler's mutation: `stats.totalVisits++`. -/
def recordVisit (c : Catalog) : Catalog :=
  { c with stats := { c.stats with totalVisits := c.stats.totalVisits + 1 } }

/-- The `POST /api/login` handler: compare the supplied password with the
hard-coded string `"admin"`. -/
def loginHandler (c : Catalog) (pw : String) : LoginResult :=
  if pw = "admin" then ⟨200, true, c⟩ else ⟨401, false, c⟩

/-! ## Operation sequences over the catalog -/

/-- One client-visible mutating operation, with its nondeterministic inputs
(timestamp, date string, stored file) made explicit. -/
inductive Op where
  | upload : Option StoredFile → String → String → Nat → String → Op
  | toggle : String → Op
  | del : String → Op
  | visit : Op
deriving Repr, DecidableEq

/-- Apply one operation to the catalog and the blob directory. -/
def applyOp (c : Catalog) (blobs : List String) : Op → Catalog × List String
  | Op.upload file title descr ts ds =>
      let r := uploadHandler c blobs file title descr ts ds
      (r.catalog, r.blobs)
  | Op.toggle p => ((toggleFavoriteRoute c p).catalog, blobs)
  | Op.del p =>
      let r := deleteImageRoute c blobs p
      (r.catalog, r.blobs)
  | Op.visit => (recordVisit c, blobs)

/-- Run a sequence of operations. -/
def runOps : List Op → Catalog → List String → Catalog × List String
  | [], c, blobs => (c, blobs)
  | op :: rest, c, blobs =>
      let r := applyOp c blobs op
      runOps rest r.1 r.2

/-- The stats invariant of the spec: both derived counters agree with the
`images` array. -/
def StatsInv (c : Catalog) : Prop :=
  c.stats.totalImages = (c.images.length : Int) ∧
  c.stats.totalFavorites = (favCount c.images : Int)

/-! ## Persisted document (`data.json`) -/

/-- JSON values, the shape of the persisted document. -/
inductive Json where
  | jnull : Json
  | jbool : Bool → Json
  | jnum : Int → Json
  | jstr : String → Json
  | jarr : List Json → Json
  | jobj : List (String × Json) → Json

/-- Serialization of one image entry (field order as written by
`JSON.stringify`). -/
def encodeImage (img : ImageEntry) : Json :=
  Json.jobj [("id", Json.jnum img.id), ("title", Json.jstr img.title),
    ("description", Json.jstr img.description), ("date", Json.jstr img.date),
    ("isFavorite", Json.jbool img.isFavorite), ("filename", Json.jstr img.filename),
    ("url", Json.jstr img.url)]

/-- Serialization of the `stats` object. -/
def encodeStats (st : Stats) : Json :=
  Json.jobj [("totalVisits", Json.jnum st.totalVisits),
    ("totalImages", Json.jnum st.totalImages),
    ("totalFavorites", Json.jnum st.totalFavorites)]

/-- `saveData`: the document `JSON.stringify(storyboardData)` writes. -/
def saveDoc (c : Catalog) : Json :=
  Json.jobj [("images", Json.jarr (c.images.map encodeImage)),
    ("stats", encodeStats c.stats)]

/-- JavaScript property access on a parsed object (first binding wins). -/
def getField (k : String) : List (String × Json) → Option Json
  | [] => none
  | kv :: rest => if kv.fst = k then some kv.snd else getField k rest

/-- Read a number field. -/
def asInt : Json → Option Int
  | Json.jnum n => some n
  | _ => none

/-- Read a string field. -/
def asStr : Json → Option String
  | Json.jstr s => some s
  | _ => none

/-- Read a boolean field. -/
def asBool : Json → Option Bool
  | Json.jbool b => some b
  | _ => none

/-- Interpret a parsed JSON value as an image entry. -/
def decodeImage (j : Json) : Option ImageEntry :=
  match j with
  | Json.jobj fields =>
    (getField "id" fields).bind fun jid =>
    (asInt jid).bind fun i =>
    (getField "title" fields).bind fun jt =>
    (asStr jt).bind fun t =>
    (getField "description" fields).bind fun jd =>
    (asStr jd).bind fun d =>
    (getField "date" fields).bind fun jdate =>
    (asStr jdate).bind fun dt =>
    (getField "isFavorite" fields).bind fun jf =>
    (asBool jf).bind fun fav =>
    (getField "filename" fields).bind fun jfn =>
    (asStr jfn).bind fun fn =>
    (getField "url" fields).bind fun jurl =>
    (asStr jurl).bind fun u =>
    some { id := i, title := t, description := d, date := dt,
           isFavorite := fav, filename := fn, url := u }
  | _ => none

/-- Interpret a parsed JSON array as the `images` array. -/
def decodeImages : List Json → Option (List ImageEntry)
  | [] => some []
  | j :: rest =>
    (decodeImage j).bind fun img =>
    (decodeImages rest).bind fun imgs =>
    some (img :: imgs)

/-- Interpret a parsed JSON value as the `stats` object. -/
def decodeStats (j : Json) : Option Stats :=
  match j with
  | Json.jobj fields =>
    (getField "totalVisits" fields).bind fun jv =>
    (asInt jv).bind fun v =>
    (getField "totalImages" fields).bind fun ji =>
    (asInt ji).bind fun i =>
    (getField "totalFavorites" fields).bind fun jf =>
    (asInt jf).bind fun f =>
    some { totalVisits := v, totalImages := i, totalFavorites := f }
  | _ => none

/-- The startup load: interpret a well-formed parsed document
`{ images, stats }` as the catalog state. -/
def loadDoc (j : Json) : Option Catalog :=
  match j with
  | Json.jobj fields =>
    (getField "images" fields).bind fun jimgs =>
    (match jimgs with
     | Json.jarr l => decodeImages l
     | _ => none).bind fun imgs =>
    (getField "stats" fields).bind fun jstats =>
    (decodeStats jstats).bind fun st =>
    some { images := imgs, stats := st }
  | _ => none

/-! ## Concrete states used to instantiate the theorems -/

/-- A sample entry with id 5. -/
def entry5 : ImageEntry :=
  { id := 5, title := "t", description := "d", date := "2024-01-01",
    isFavorite := false, filename := "5.png", url := "/uploads/5.png" }

/-- A catalog holding exactly `entry5`, with consistent stats. -/
def catalogWithId5 : Catalog :=
  { images := [entry5],
    stats := { totalVisits := 0, totalImages := 1, totalFavorites := 0 } }

/-! ## Helper lemmas -/

theorem favCount_cons_false (img : ImageEntry) (l : List ImageEntry)
    (h : img.isFavorite = false) : favCount (img :: l) = favCount l := by
  simp [favCount, h]

theorem toggleFirst_length (p : Option Int) (l : List ImageEntry) :
    ∀ l2 v, toggleFirst p l = some (l2, v) → l2.length = l.length := by
  induction l with
  | nil => intro l2 v h; simp [toggleFirst] at h
  | cons img rest ih =>
    intro l2 v h
    by_cases hi : idMatches p img = true
    · simp only [toggleFirst, hi, if_true, Option.some.injEq, Prod.mk.injEq] at h
      obtain ⟨h1, -⟩ := h
      subst h1
      simp
    · simp only [toggleFirst, hi, if_false, Bool.false_eq_true] at h
      cases heq : toggleFirst p rest with
      | none => rw [heq] at h; cases h
      | some pr =>
        obtain ⟨rest2, v'⟩ := pr
        rw [heq] at h
        simp only [Option.some.injEq, Prod.mk.injEq] at h
        obtain ⟨h1, -⟩ := h
        subst h1
        simp [ih rest2 v' heq]

theorem toggleFirst_eq_none (p : Option Int) (l : List ImageEntry)
    (h : ∀ e ∈ l, idMatches p e = false) : toggleFirst p l = none := by
  induction l with
  | nil => rfl
  | cons img rest ih =>
    have hm : idMatches p img = false := h img (List.mem_cons_self img rest)
    have hr : toggleFirst p rest = none :=
      ih (fun e he => h e (List.mem_cons_of_mem img he))
    simp [toggleFirst, hm, hr]

theorem toggleFirst_isSome (p : Option Int) (l : List ImageEntry) (e : ImageEntry)
    (he : e ∈ l) (hm : idMatches p e = true) :
    ∃ l2 v, toggleFirst p l = some (l2, v) := by
  induction l with
  | nil => cases he
  | cons img rest ih =>
    by_cases hi : idMatches p img = true
    · exact ⟨{ img with isFavorite := !img.isFavorite } :: rest, !img.isFavorite,
        by simp only [toggleFirst, hi, if_true]⟩
    · have he' : e ∈ rest := by
        cases List.mem_cons.mp he with
        | inl h1 => subst h1; exact absurd hm hi
        | inr h2 => exact h2
      obtain ⟨l2, v, hh⟩ := ih he'
      exact ⟨img :: l2, v, by simp [toggleFirst, hi, hh]⟩

theorem toggleFirst_toggleFirst (p : Option Int) (l : List ImageEntry) :
    ∀ l2 v, toggleFirst p l = some (l2, v) → toggleFirst p l2 = some (l, !v) := by
  induction l with
  | nil => intro l2 v h; simp [toggleFirst] at h
  | cons img rest ih =>
    intro l2 v h
    by_cases hi : idMatches p img = true
    · simp only [toggleFirst, hi, if_true, Option.some.injEq, Prod.mk.injEq] at h
      obtain ⟨h1, h2⟩ := h
      subst h1
      subst h2
      have hi' : idMatches p { img with isFavorite := !img.isFavorite } = true := hi
      simp [toggleFirst, hi', Bool.not_not]
    · simp only [toggleFirst, hi, if_false, Bool.false_eq_true] at h
      cases heq : toggleFirst p rest with
      | none => rw [heq] at h; cases h
      | some pr =>
        obtain ⟨rest2, v'⟩ := pr
        rw [heq] at h
        simp only [Option.some.injEq, Prod.mk.injEq] at h
        obtain ⟨h1, h2⟩ := h
        subst h1
        subst h2
        have hrec := ih rest2 v' heq
        simp [toggleFirst, hi, hrec]

theorem deleteFirst_eq_none (p : Option Int) (l : List ImageEntry)
    (h : ∀ e ∈ l, idMatches p e = false) : deleteFirst p l = none := by
  induction l with
  | nil => rfl
  | cons img rest ih =>
    have hm : idMatches p img = false := h img (List.mem_cons_self img rest)
    have hr : deleteFirst p rest = none :=
      ih (fun e he => h e (List.mem_cons_of_mem img he))
    simp [deleteFirst, hm, hr]

theorem deleteFirst_of_nodup (n : Int) (l : List ImageEntry)
    (hnodup : (l.map ImageEntry.id).Nodup) (e : ImageEntry) (he : e ∈ l)
    (hid : e.id = n) :
    ∃ l₁ l₂, l = l₁ ++ e :: l₂ ∧ deleteFirst (some n) l = some (e, l₁ ++ l₂) := by
  induction l with
  | nil => cases he
  | cons img rest ih =>
    by_cases hi : img.id = n
    · have heqe : e = img := by
        cases List.mem_cons.mp he with
        | inl h1 => exact h1
        | inr h2 =>
          exfalso
          have hmem : e.id ∈ rest.map ImageEntry.id := List.mem_map_of_mem _ h2
          rw [hid, ← hi] at hmem
          exact (List.nodup_cons.mp hnodup).1 hmem
      subst heqe
      exact ⟨[], rest, by simp, by simp [deleteFirst, idMatches, hi]⟩
    · have he' : e ∈ rest := by
        cases List.mem_cons.mp he with
        | inl h1 => subst h1; exact absurd hid hi
        | inr h2 => exact h2
      obtain ⟨l₁, l₂, hl, hd⟩ := ih (List.nodup_cons.mp hnodup).2 he'
      exact ⟨img :: l₁, l₂, by simp [hl],
        by simp [deleteFirst, idMatches, hi, hd]⟩

theorem decodeImage_encode (img : ImageEntry) :
    decodeImage (encodeImage img) = some img := rfl

theorem decodeStats_encode (st : Stats) :
    decodeStats (encodeStats st) = some st := rfl

theorem decodeImages_encode (l : List ImageEntry) :
    decodeImages (l.map encodeImage) = some l := by
  induction l with
  | nil => rfl
  | cons img rest ih => simp [decodeImages, decodeImage_encode, ih]

/-! ## Claim theorems -/

/-- C2: a valid upload (attachment present, title and description both
non-empty) prepends the new entry to the images array at index 0, keeps all
previously present entries in their prior relative order, sets `totalImages`
to the length of the new array, and succeeds. -/
theorem C2_upload_prepends (c : Catalog) (blobs : List String) (f : StoredFile)
    (title descr ds : String) (ts : Nat) (ht : title ≠ "") (hd : descr ≠ "") :
    (uploadHandler c blobs (some f) title descr ts ds).catalog.images
        = mkImageEntry ts title descr ds f.filename :: c.images ∧
    (uploadHandler c blobs (some f) title descr ts ds).catalog.stats.totalImages
        = ((uploadHandler c blobs (some f) title descr ts ds).catalog.images.length : Int) ∧
    (uploadHandler c blobs (some f) title descr ts ds).status = 200 := by
  have hv : ¬(title = "" ∨ descr = "") := by tauto
  simp [uploadHandler, hv]

/-- Witness for C2: a concrete valid upload into the empty catalog. -/
theorem C2_upload_prepends_witness :
    (uploadHandler initialStoryboardData [] (some ⟨"a.png"⟩) "t" "d" 7 "2024").catalog.images
        = mkImageEntry 7 "t" "d" "2024" "a.png" :: initialStoryboardData.images :=
  (C2_upload_prepends initialStoryboardData [] ⟨"a.png"⟩ "t" "d" "2024" 7
    (by decide) (by decide)).1

/-- C5: toggling favorite on an id not present in the images array answers
404 and leaves the whole catalog (images and every statistic) unchanged. -/
theorem C5_toggle_unknown_id (c : Catalog) (n : Int)
    (h : ∀ e ∈ c.images, e.id ≠ n) :
    toggleFavorite c (some n) = ⟨404, none, c⟩ := by
  have hall : ∀ e ∈ c.images, idMatches (some n) e = false := by
    intro e he
    simp [idMatches, h e he]
  simp [toggleFavorite, toggleFirst_eq_none _ _ hall]

/-- Witness for C5: toggling id 7 in a catalog that only holds id 5. -/
theorem C5_toggle_unknown_id_witness :
    toggleFavorite catalogWithId5 (some 7) = ⟨404, none, catalogWithId5⟩ :=
  C5_toggle_unknown_id catalogWithId5 7 (by decide)

/-- C6: when the attachment was stored but `title` or `description` is
missing, the handler unlinks the just-written blob, answers 400, and leaves
the catalog unchanged; if the blob directory held no duplicate of that name,
no orphaned blob remains. -/
theorem C6_upload_missing_fields (c : Catalog) (blobs : List String) (f : StoredFile)
    (title descr ds : String) (ts : Nat)
    (hwritten : f.filename ∈ blobs) (hmissing : title = "" ∨ descr = "") :
    uploadHandler c blobs (some f) title descr ts ds
        = ⟨400, none, c, blobs.erase f.filename⟩ ∧
    (blobs.Nodup →
      f.filename ∉ (uploadHandler c blobs (some f) title descr ts ds).blobs) := by
  constructor
  · simp [uploadHandler, hmissing]
  · intro hnodup
    simp [uploadHandler, hmissing, hnodup.mem_erase_iff]

/-- Witness for C6: upload with an empty title; the stored blob is removed. -/
theorem C6_upload_missing_fields_witness :
    uploadHandler catalogWithId5 ["9-9.png"] (some ⟨"9-9.png"⟩) "" "d" 9 "2024"
        = ⟨400, none, catalogWithId5, List.erase ["9-9.png"] "9-9.png"⟩ :=
  (C6_upload_missing_fields catalogWithId5 ["9-9.png"] ⟨"9-9.png"⟩ "" "d" "2024" 9
    (by decide) (Or.inl rfl)).1

/-- C7 counterexample: the claim says the stored blob filename is built only
from the timestamp and the random component and does not depend on
user-supplied text; but two uploads that differ only in the user-supplied
original filename get different stored filenames, because the extension
`path.extname(file.originalname)` is taken from user text. -/
theorem C7_filename_counterexample :
    multerFilename 1000 42 "photo.png" ≠ multerFilename 1000 42 "photo.jpg" := by
  decide

/-- C7 amended: the stored filename is built from the timestamp, the random
component, and the extension of the user-supplied original filename; it does
not depend on the title, the description, or the original filename apart
from its extension. -/
theorem C7_filename_ext_only (ts rnd : Nat) (name1 name2 : String)
    (h : extname name1 = extname name2) :
    multerFilename ts rnd name1 = multerFilename ts rnd name2 := by
  simp [multerFilename, h]

/-- Witness for the amended C7: two different original filenames with the
same extension give the same stored name. -/
theorem C7_filename_ext_only_witness :
    multerFilename 1000 42 "holiday.png" = multerFilename 1000 42 "cat.png" :=
  C7_filename_ext_only 1000 42 "holiday.png" "cat.png" (by decide)

/-- C8: serializing the catalog as `saveData` does and then interpreting the
resulting document as the startup load does yields exactly the same catalog:
same images in the same order with the same fields, same statistics. -/
theorem C8_save_load_round_trip (c : Catalog) : loadDoc (saveDoc c) = some c := by
  simp [loadDoc, saveDoc, getField, decodeImages_encode, decodeStats_encode]

/-- C9: the login route succeeds with 200 exactly on the password `"admin"`,
answers 401 on every other value, and never changes the catalog. -/
theorem C9_login (c : Catalog) (pw : String) :
    (pw = "admin" → loginHandler c pw = ⟨200, true, c⟩) ∧
    (pw ≠ "admin" → loginHandler c pw = ⟨401, false, c⟩) ∧
    (loginHandler c pw).catalog = c := by
  refine ⟨fun h => by simp [loginHandler, h], fun h => by simp [loginHandler, h], ?_⟩
  by_cases h : pw = "admin" <;> simp [loginHandler, h]

/-- Witness for C9: the hard-coded password logs in, another value does not. -/
theorem C9_login_witness :
    loginHandler initialStoryboardData "admin" = ⟨200, true, initialStoryboardData⟩ :=
  (C9_login initialStoryboardData "admin").1 rfl

/-- C3: deleting by id with unique ids removes exactly the matching entry,
leaves the other entries in order, recomputes both counters from the
remaining array, unlinks the removed entry's blob and succeeds; deleting an
absent id answers 404 and changes nothing. -/
theorem C3_delete (c : Catalog) (blobs : List String) (n : Int)
    (hnodup : (c.images.map ImageEntry.id).Nodup) :
    ((∀ e ∈ c.images, e.id ≠ n) →
      deleteImage c blobs (some n) = ⟨404, false, c, blobs⟩) ∧
    (∀ e ∈ c.images, e.id = n →
      ∃ l₁ l₂, c.images = l₁ ++ e :: l₂ ∧
        deleteImage c blobs (some n) =
          ⟨200, true,
           { images := l₁ ++ l₂,
             stats :=
               { c.stats with
                 totalImages := ((l₁ ++ l₂).length : Int),
                 totalFavorites := (favCount (l₁ ++ l₂) : Int) } },
           blobs.erase e.filename⟩) := by
  constructor
  · intro h
    have hall : ∀ e ∈ c.images, idMatches (some n) e = false := by
      intro e he
      simp [idMatches, h e he]
    simp [deleteImage, deleteFirst_eq_none _ _ hall]
  · intro e he hid
    obtain ⟨l₁, l₂, hl, hd⟩ := deleteFirst_of_nodup n c.images hnodup e he hid
    exact ⟨l₁, l₂, hl, by simp [deleteImage, hd]⟩

/-- Witness for C3: deleting the absent id 7 from a one-entry catalog. -/
theorem C3_delete_witness :
    deleteImage catalogWithId5 ["5.png"] (some 7)
      = ⟨404, false, catalogWithId5, ["5.png"]⟩ :=
  (C3_delete catalogWithId5 ["5.png"] 7 (by decide)).1 (by decide)

/-- C4: toggling favorite twice on an id that is present restores the images
array exactly (so that entry's `isFavorite` is back to its original value),
puts `totalFavorites` back at the favorite count of the original array, and,
whenever the state's `totalFavorites` agreed with that count, restores the
whole catalog. -/
theorem C4_toggle_twice (c : Catalog) (n : Int)
    (e : ImageEntry) (he : e ∈ c.images) (hid : e.id = n) :
    (toggleFavorite (toggleFavorite c (some n)).catalog (some n)).catalog.images
        = c.images ∧
    (toggleFavorite (toggleFavorite c (some n)).catalog (some n)).catalog.stats.totalFavorites
        = (favCount c.images : Int) ∧
    (c.stats.totalFavorites = (favCount c.images : Int) →
      (toggleFavorite (toggleFavorite c (some n)).catalog (some n)).catalog = c) := by
  have hm : idMatches (some n) e = true := by simp [idMatches, hid]
  obtain ⟨l2, v, h1⟩ := toggleFirst_isSome (some n) c.images e he hm
  have h2 := toggleFirst_toggleFirst (some n) c.images l2 v h1
  refine ⟨by simp [toggleFavorite, h1, h2], by simp [toggleFavorite, h1, h2], ?_⟩
  intro hfav
  simp only [toggleFavorite, h1, h2]
  rw [← hfav]

/-- Witness for C4: double toggle on id 5 restores the one-entry catalog. -/
theorem C4_toggle_twice_witness :
    (toggleFavorite (toggleFavorite catalogWithId5 (some 5)).catalog (some 5)).catalog
      = catalogWithId5 :=
  (C4_toggle_twice catalogWithId5 5 entry5 (by decide) rfl).2.2 (by decide)

/-- Every route handler preserves the stats invariant. -/
theorem applyOp_statsInv (c : Catalog) (blobs : List String) (op : Op)
    (h : StatsInv c) : StatsInv (applyOp c blobs op).1 := by
  obtain ⟨h1, h2⟩ := h
  cases op with
  | upload file title descr ts ds =>
    cases file with
    | none => exact ⟨h1, h2⟩
    | some f =>
      by_cases hv : title = "" ∨ descr = ""
      · simp only [applyOp, uploadHandler]
        rw [if_pos hv]
        exact ⟨h1, h2⟩
      · simp only [applyOp, uploadHandler]
        rw [if_neg hv]
        refine ⟨rfl, ?_⟩
        show c.stats.totalFavorites = _
        rw [favCount_cons_false _ _ rfl]
        exact h2
  | toggle p =>
    cases heq : toggleFirst (jsParseInt p) c.images with
    | none =>
      simp only [applyOp, toggleFavoriteRoute, toggleFavorite, heq]
      exact ⟨h1, h2⟩
    | some pr =>
      obtain ⟨l2, v⟩ := pr
      have hlen := toggleFirst_length (jsParseInt p) c.images l2 v heq
      simp only [applyOp, toggleFavoriteRoute, toggleFavorite, heq]
      exact ⟨by rw [h1, hlen], rfl⟩
  | del p =>
    cases heq : deleteFirst (jsParseInt p) c.images with
    | none =>
      simp only [applyOp, deleteImageRoute, deleteImage, heq]
      exact ⟨h1, h2⟩
    | some pr =>
      obtain ⟨e, l2⟩ := pr
      simp only [applyOp, deleteImageRoute, deleteImage, heq]
      exact ⟨rfl, rfl⟩
  | visit => exact ⟨h1, h2⟩

/-- Running any operation sequence from a state satisfying the stats
invariant keeps it. -/
theorem runOps_statsInv (ops : List Op) :
    ∀ c blobs, StatsInv c → StatsInv (runOps ops c blobs).1 := by
  induction ops with
  | nil => intro c blobs h; exact h
  | cons op rest ih =>
    intro c blobs h
    exact ih _ _ (applyOp_statsInv c blobs op h)

/-- C1: every state reachable from the empty catalog by upload,
favorite-toggle, delete and visit operations has `totalImages` equal to the
length of the images array and `totalFavorites` equal to the number of
entries with `isFavorite = true`. -/
theorem C1_stats_invariant (ops : List Op) :
    StatsInv (runOps ops initialStoryboardData []).1 :=
  runOps_statsInv ops initialStoryboardData [] ⟨rfl, rfl⟩

/-- C10 counterexample: the claim says an `:id` parameter with no leading
digits parses to NaN and always yields 404 with the catalog unchanged; but
the parameter `"+5"` starts with `'+'`, not a digit, yet `parseInt` returns
5 and the favorite route mutates the entry with id 5. -/
theorem C10_parseInt_counterexample :
    ("+5").data.head? = some '+' ∧ ('+').isDigit = false ∧
    jsParseInt "+5" = some 5 ∧
    (toggleFavoriteRoute catalogWithId5 "+5").status = 200 ∧
    (toggleFavoriteRoute catalogWithId5 "+5").catalog ≠ catalogWithId5 := by
  decide

/-- C10 amended: the id matched by the favorite and delete routes is the
JavaScript `parseInt` of the `:id` parameter (which skips whitespace and
accepts a sign and a hex marker): whenever `parseInt` yields NaN the routes
answer 404 and change nothing, and otherwise they behave as on the parsed
numeric id — in particular `"5abc"` is treated as id 5 and mutates the
matching entry. -/
theorem C10_id_param_parseInt (c : Catalog) (blobs : List String) (p : String) :
    (jsParseInt p = none →
      toggleFavoriteRoute c p = ⟨404, none, c⟩ ∧
      deleteImageRoute c blobs p = ⟨404, false, c, blobs⟩) ∧
    (∀ n : Int, jsParseInt p = some n →
      toggleFavoriteRoute c p = toggleFavorite c (some n) ∧
      deleteImageRoute c blobs p = deleteImage c blobs (some n)) ∧
    jsParseInt "abc" = none ∧
    jsParseInt "5abc" = some 5 ∧
    (toggleFavoriteRoute catalogWithId5 "5abc").catalog.images
      = [{ entry5 with isFavorite := true }] := by
  refine ⟨?_, ?_, by decide, by decide, by decide⟩
  · intro hnan
    have hall : ∀ e ∈ c.images, idMatches none e = false := fun e he => rfl
    constructor
    · simp [toggleFavoriteRoute, hnan, toggleFavorite,
        toggleFirst_eq_none _ _ hall]
    · simp [deleteImageRoute, hnan, deleteImage,
        deleteFirst_eq_none _ _ hall]
  · intro n hn
    constructor
    · simp [toggleFavoriteRoute, hn]
    · simp [deleteImageRoute, hn]

/-- Witness for the amended C10: a digitless parameter answers 404 and the
catalog is untouched. -/
theorem C10_id_param_parseInt_witness :
    toggleFavoriteRoute catalogWithId5 "xyz" = ⟨404, none, catalogWithId5⟩ :=
  ((C10_id_param_parseInt catalogWithId5 [] "xyz").1 (by decide)).1

end Storyboard
